import Mathlib

/-!
Shallow embedding of the WhatsApp Express server variants
(src/server.js, src/unnamed/part_000, src/unnamed/part_001).

Strings are modelled as `List Char`; the JavaScript string operations used
by the code (trim, includes, replace(/\D/g, ''), startsWith, length, +)
are embedded as executable list functions. External `whatsapp-web.js`
client calls are oracles collected in a `ClientEnv` record, and every call
the handlers perform is logged as a `ClientOp` so that "no client
operation happens" is a provable statement about the produced log.
-/

/-- Whitespace as stripped by JavaScript `String.prototype.trim`
(ASCII fragment: space, tab, line feed, carriage return, vertical tab,
form feed). -/
def jsWhitespace (c : Char) : Bool :=
  c = ' ' || c = '\t' || c = '\n' || c = '\r' || c = '\x0b' || c = '\x0c'

/-- JavaScript `phone.trim()`: drop leading and trailing whitespace. -/
def jsTrim (s : List Char) : List Char :=
  ((s.dropWhile jsWhitespace).reverse.dropWhile jsWhitespace).reverse

/-- JavaScript `hay.includes(needle)`: substring containment. -/
def containsSub (needle : List Char) : List Char → Bool
  | [] => needle.isEmpty
  | c :: rest => needle.isPrefixOf (c :: rest) || containsSub needle rest

/-- The WhatsApp user-address suffix appended to bare numbers. -/
def cusSuffix : List Char := "@c.us".data

/-- Phone normalization shared by `app.post('/send')` (server.js lines
548-558, after trim) and `app.post('/send-bulk')` (lines 644-651, no
trim): if the string already includes `@c.us` it is kept; otherwise
non-digits are removed (JS `replace(/\D/g, '')`), `91` is prepended when
the digit string does not already start with `91` and has length 10, and
`@c.us` is appended. -/
def formatPhone (phone : List Char) : List Char :=
  if containsSub cusSuffix phone then phone
  else
    let digits := phone.filter Char.isDigit
    let withCC :=
      if !(("91".data).isPrefixOf digits) && digits.length == 10
      then "91".data ++ digits else digits
    withCC ++ cusSuffix

/-- `/send` phone normalization (server.js lines 549-558): `phone.trim()`
followed by the shared normalization. -/
def formatPhoneSend (phone : List Char) : List Char :=
  formatPhone (jsTrim phone)

/-- `${phoneNumber}@c.us` formatting used by `ensureChatExists`
(server.js line 179) and the part_000 send handler (line 678). -/
def formatCUs (phoneNumber : List Char) : List Char :=
  if containsSub cusSuffix phoneNumber then phoneNumber
  else phoneNumber ++ cusSuffix

example : formatPhoneSend "9876543210".data = "919876543210@c.us".data := by decide
example : formatPhoneSend " 98-765 43210 ".data = "919876543210@c.us".data := by decide
example : formatPhoneSend "9123456789".data = "9123456789@c.us".data := by decide
example : formatPhoneSend "919876543210".data = "919876543210@c.us".data := by decide
example : formatPhoneSend "bob@c.us".data = "bob@c.us".data := by decide

/-- The module-level mutable state of server.js (lines 36-42). -/
structure ServerState where
  isReady : Bool
  isAuthenticated : Bool
  qrCode : Option (List Char)
  clientInitialized : Bool
  initAttempts : Nat
  hasClient : Bool
deriving DecidableEq

/-- server.js line 42: `const MAX_INIT_ATTEMPTS = 3`. -/
def MAX_INIT_ATTEMPTS : Nat := 3

/-- Externally visible side effects the orchestrator code can request:
constructing a new automation client (`new Client(...)` followed by
`client.initialize()`), arming a `setTimeout` that may reconnect, or
deleting the on-disk session store.  The last constructor exists so that
its absence from every produced effect list is a provable statement:
no code in the repository emits it. -/
inductive Effect where
  | constructClient
  | scheduleReconnect (delayMs : Nat)
  | removeSessionStore
deriving DecidableEq

/-- `initWhatsAppClient` (server.js lines 45-174): bail out once
`initAttempts >= MAX_INIT_ATTEMPTS`, otherwise increment the counter and
construct (and start initializing) a fresh client. -/
def initWhatsAppClient (s : ServerState) : ServerState × List Effect :=
  if MAX_INIT_ATTEMPTS ≤ s.initAttempts then (s, [])
  else
    ({ s with initAttempts := s.initAttempts + 1, hasClient := true },
     [Effect.constructClient])

/-- `client.on('qr')` handler (lines 101-123): store the rendered QR
data URL (rendering by the qrcode library is abstracted to the payload). -/
def onQr (s : ServerState) (payload : List Char) : ServerState × List Effect :=
  ({ s with qrCode := some payload }, [])

/-- `client.on('ready')` handler (lines 125-131). -/
def onReady (s : ServerState) : ServerState × List Effect :=
  ({ s with isReady := true, isAuthenticated := true, qrCode := none,
            clientInitialized := true }, [])

/-- `client.on('authenticated')` handler (lines 133-137). -/
def onAuthenticated (s : ServerState) : ServerState × List Effect :=
  ({ s with isAuthenticated := true, qrCode := none }, [])

/-- `client.on('auth_failure')` handler (lines 139-144): clears the three
fields and nothing else — in particular it arms no timer and requests no
client construction. -/
def onAuthFailure (s : ServerState) : ServerState × List Effect :=
  ({ s with isReady := false, isAuthenticated := false, qrCode := none }, [])

/-- `client.on('disconnected')` handler (lines 146-162): clear all flags;
for any reason other than `LOGOUT` arm a 5000 ms reconnect timer.  The
handler touches no files: it never removes the session store. -/
def onDisconnected (s : ServerState) (reason : List Char) :
    ServerState × List Effect :=
  ({ s with isReady := false, isAuthenticated := false, qrCode := none,
            clientInitialized := false },
   if reason = "LOGOUT".data then []
   else [Effect.scheduleReconnect 5000])

/-- Body of the reconnect timer armed by the disconnected handler
(lines 155-160): reinitialize only while not initialized and under the
attempt cap. -/
def reconnectTimerFire (s : ServerState) : ServerState × List Effect :=
  if s.clientInitialized = false ∧ s.initAttempts < MAX_INIT_ATTEMPTS then
    initWhatsAppClient s
  else (s, [])

/-- `client.initialize().catch(...)` (lines 169-173). -/
def onInitError (s : ServerState) : ServerState × List Effect :=
  ({ s with isReady := false, isAuthenticated := false }, [])

/-- State part of `app.post('/logout')` (lines 752-783): when a client
exists, reset the flags (the `client.logout()` call itself is the
external library's concern). -/
def onLogoutRequest (s : ServerState) : ServerState × List Effect :=
  if s.hasClient then
    ({ s with isReady := false, isAuthenticated := false, qrCode := none,
              clientInitialized := false }, [])
  else (s, [])

/-- Every way the orchestrator state can be driven: the five lifecycle
events, the reconnect timer firing, an explicit `initWhatsAppClient`
call, an initialization error, and a `/logout` request. -/
inductive SrvAction where
  | qr (payload : List Char)
  | ready
  | authenticated
  | authFailure
  | disconnected (reason : List Char)
  | reconnectTimer
  | callInit
  | initError
  | logoutRequest
deriving DecidableEq

/-- One transition of the orchestrator. -/
def stepAction (s : ServerState) : SrvAction → ServerState × List Effect
  | SrvAction.qr p => onQr s p
  | SrvAction.ready => onReady s
  | SrvAction.authenticated => onAuthenticated s
  | SrvAction.authFailure => onAuthFailure s
  | SrvAction.disconnected r => onDisconnected s r
  | SrvAction.reconnectTimer => reconnectTimerFire s
  | SrvAction.callInit => initWhatsAppClient s
  | SrvAction.initError => onInitError s
  | SrvAction.logoutRequest => onLogoutRequest s

/-- Run a sequence of actions, accumulating every requested effect. -/
def runActions : ServerState → List SrvAction → ServerState × List Effect
  | s, [] => (s, [])
  | s, a :: rest =>
    ((runActions (stepAction s a).1 rest).1,
     (stepAction s a).2 ++ (runActions (stepAction s a).1 rest).2)

/-- The JSON produced by `app.get('/status')` (server.js lines 457-468);
the timestamp, platform and uptime fields carry no state and are
omitted. -/
structure StatusResponse where
  connected : Bool
  ready : Bool
  authenticated : Bool
  hasQR : Bool
  initAttempts : Nat
deriving DecidableEq

/-- `app.get('/status')`: `connected: isAuthenticated || isReady`,
`hasQR: !!qrCode`. -/
def statusResponse (s : ServerState) : StatusResponse :=
  { connected := s.isAuthenticated || s.isReady
  , ready := s.isReady
  , authenticated := s.isAuthenticated
  , hasQR := s.qrCode.isSome
  , initAttempts := s.initAttempts }

/-- One call to the external automation client (or an awaited delay), as
performed by the guard and the send handlers. -/
inductive ClientOp where
  | isRegisteredUser (phone : List Char)
  | getChatById (phone : List Char)
  | getContactById (phone : List Char)
  | sendMessage (phone : List Char) (text : List Char)
  | getState
  | delay (ms : Nat)
deriving DecidableEq

/-- Oracles for the external client: registration lookup, chat fetch
(`ok b` is a returned chat with truthiness `b`, `error e` a thrown
message), contact fetch, message send (returning `result.id.id` or
throwing), and `client.getState()` (used only by part_000). -/
structure ClientEnv where
  isRegisteredUser : List Char → Bool
  getChatById : List Char → Except (List Char) Bool
  getContactById : List Char → Except (List Char) Unit
  sendMessage : List Char → List Char → Except (List Char) (List Char)
  getState : Except (List Char) (List Char)

/-- server.js line 185: the error thrown for unregistered numbers. -/
def notRegisteredMsg : List Char :=
  "Phone number is not registered on WhatsApp".data

/-- The minimal placeholder message sent to force chat creation. -/
def dotText : List Char := ".".data

/-- server.js line 235: the message sent by the alternative method. -/
def altText : List Char := "Hi, this is a test message from WhatsApp API.".data

/-- server.js line 244: the error thrown when the alternative method also
fails. -/
def cannotCreateMsg (phoneNumber : List Char) : List Char :=
  "Cannot create chat with ".data ++ phoneNumber ++
    ". User might have blocked you or privacy settings prevent chat creation.".data

/-- server.js line 212: `error.message.includes('No LID') ||
error.message.includes('LID')`. -/
def containsLID (e : List Char) : Bool :=
  containsSub ("No LID".data) e || containsSub ("LID".data) e

/-- `createChatAlternative` (server.js lines 221-246): format the phone,
look up the contact (result and errors both ignored), send a plain test
message; rethrow a descriptive error when that send fails. -/
def createChatAlternative (env : ClientEnv) (phoneNumber : List Char) :
    Except (List Char) Bool × List ClientOp :=
  let fp := formatCUs phoneNumber
  match env.sendMessage fp altText with
  | Except.ok _ =>
    (Except.ok true, [ClientOp.getContactById fp, ClientOp.sendMessage fp altText])
  | Except.error _ =>
    (Except.error (cannotCreateMsg phoneNumber),
     [ClientOp.getContactById fp, ClientOp.sendMessage fp altText])

/-- The `try` body of `ensureChatExists` (server.js lines 178-207):
registration check first (unregistered numbers throw), then a chat fetch
whose failure or falsy result leads to sending the placeholder `.` and
waiting 1000 ms. -/
def ensureChatBody (env : ClientEnv) (fp : List Char) :
    Except (List Char) Bool × List ClientOp :=
  if env.isRegisteredUser fp = false then
    (Except.error notRegisteredMsg, [ClientOp.isRegisteredUser fp])
  else
    match env.getChatById fp with
    | Except.ok true =>
      (Except.ok true, [ClientOp.isRegisteredUser fp, ClientOp.getChatById fp])
    | _ =>
      match env.sendMessage fp dotText with
      | Except.ok _ =>
        (Except.ok true,
         [ClientOp.isRegisteredUser fp, ClientOp.getChatById fp,
          ClientOp.sendMessage fp dotText, ClientOp.delay 1000])
      | Except.error e =>
        (Except.error e,
         [ClientOp.isRegisteredUser fp, ClientOp.getChatById fp,
          ClientOp.sendMessage fp dotText])

/-- `ensureChatExists` (server.js lines 177-218): the body above, plus
the `catch` that diverts errors mentioning `LID` to the alternative
method and rethrows everything else. -/
def ensureChatExists (env : ClientEnv) (phoneNumber : List Char) :
    Except (List Char) Bool × List ClientOp :=
  let r := ensureChatBody env (formatCUs phoneNumber)
  match r.1 with
  | Except.ok v => (Except.ok v, r.2)
  | Except.error e =>
    if containsLID e then
      let alt := createChatAlternative env phoneNumber
      (alt.1, r.2 ++ alt.2)
    else (Except.error e, r.2)

/-- `ensureChatExists` of src/unnamed/part_000 (lines 596-630).  Unlike
the server.js variant it takes an already formatted phone, tries the
chat fetch FIRST (a truthy chat returns success immediately, with no
registration check), and only when no chat was fetched checks
registration, sends the placeholder `.` and waits 1000 ms. -/
def ensureChatExistsV0 (env : ClientEnv) (formattedPhone : List Char) :
    Except (List Char) Bool × List ClientOp :=
  match env.getChatById formattedPhone with
  | Except.ok true => (Except.ok true, [ClientOp.getChatById formattedPhone])
  | _ =>
    if env.isRegisteredUser formattedPhone = false then
      (Except.error notRegisteredMsg,
       [ClientOp.getChatById formattedPhone, ClientOp.isRegisteredUser formattedPhone])
    else
      match env.sendMessage formattedPhone dotText with
      | Except.ok _ =>
        (Except.ok true,
         [ClientOp.getChatById formattedPhone, ClientOp.isRegisteredUser formattedPhone,
          ClientOp.sendMessage formattedPhone dotText, ClientOp.delay 1000])
      | Except.error e =>
        (Except.error e,
         [ClientOp.getChatById formattedPhone, ClientOp.isRegisteredUser formattedPhone,
          ClientOp.sendMessage formattedPhone dotText])

/-- The JSON body of a `/send` response (server.js); `status` is the HTTP
status code. -/
structure SendResponse where
  status : Nat
  success : Bool
  messageId : Option (List Char)
  error : Option (List Char)
  errorCode : Option (List Char)
deriving DecidableEq

/-- server.js lines 533-536. -/
def notConnectedMsg : List Char :=
  "WhatsApp not connected. Scan QR code first.".data

/-- server.js lines 543-545. -/
def requiredMsg : List Char := "Phone and message are required".data

/-- Error classification of `/send` (server.js lines 591-607): map the
raw error text to a user-facing message and an error code by substring
inspection. -/
def classifySendError (e : List Char) : List Char × List Char :=
  if containsSub ("No LID".data) e || containsSub ("LID".data) e then
    ("Cannot send message to this contact. The contact might have strict privacy settings or has blocked you.".data,
     "NO_LID_ERROR".data)
  else if containsSub ("not registered".data) e then
    ("This phone number is not registered on WhatsApp.".data,
     "NOT_REGISTERED".data)
  else if containsSub ("blocked".data) e then
    ("You have been blocked by this contact.".data, "BLOCKED".data)
  else if containsSub ("timeout".data) e then
    ("Message sending timed out. Please try again.".data, "TIMEOUT".data)
  else (e, "SEND_ERROR".data)

/-- JavaScript truthiness of an optional string request field:
`undefined` and the empty string are falsy. -/
def jsTruthy (o : Option (List Char)) : Bool :=
  match o with
  | none => false
  | some s => !s.isEmpty

/-- `app.post('/send')` (server.js lines 530-616).  Readiness guard
first, then field validation, normalization, the chat-existence guard
whose outcome is caught and ignored (lines 563-570), a 500 ms delay, and
the actual send.  Returns the response together with the list of client
operations performed. -/
def sendHandler (env : ClientEnv) (s : ServerState)
    (phone message : Option (List Char)) : SendResponse × List ClientOp :=
  if !s.isReady || !s.hasClient then
    ({ status := 400, success := false, messageId := none,
       error := some notConnectedMsg, errorCode := none }, [])
  else if !(jsTruthy phone) || !(jsTruthy message) then
    ({ status := 400, success := false, messageId := none,
       error := some requiredMsg, errorCode := none }, [])
  else
    let ph := phone.getD []
    let m := message.getD []
    let fp := formatPhoneSend ph
    let guard := ensureChatExists env fp
    let ops := guard.2 ++ [ClientOp.delay 500, ClientOp.sendMessage fp m]
    match env.sendMessage fp m with
    | Except.ok mid =>
      ({ status := 200, success := true, messageId := some mid,
         error := none, errorCode := none }, ops)
    | Except.error e =>
      ({ status := 500, success := false, messageId := none,
         error := some (classifySendError e).1,
         errorCode := some (classifySendError e).2 }, ops)

/-- A contact in a `/send-bulk` request body: either an object with a
`phone` field or a bare string (`contact.phone || contact`). -/
inductive Contact where
  | obj (phone : List Char)
  | plain (s : List Char)
deriving DecidableEq

/-- `contact.phone || contact` (server.js line 644). -/
def contactPhone : Contact → List Char
  | Contact.obj p => p
  | Contact.plain s => s

/-- One entry of the `/send-bulk` results array (server.js lines 671-688):
a success entry carries the normalized phone and the message id; a
failure entry carries the raw contact phone, the raw error text, and a
code derived from it. -/
structure BulkEntry where
  phone : List Char
  success : Bool
  messageId : Option (List Char)
  error : Option (List Char)
  errorCode : Option (List Char)
deriving DecidableEq

/-- One iteration of the `/send-bulk` loop (server.js lines 640-690):
normalize, run the guard with its errors swallowed (lines 656-661), wait
2000 ms between messages (`if (i > 0)`), then send; a thrown send is
caught and recorded as a failure entry, never aborting the loop. -/
def bulkItem (env : ClientEnv) (message : List Char) (c : Contact)
    (first : Bool) : BulkEntry × List ClientOp :=
  let raw := contactPhone c
  let fp := formatPhone raw
  let guard := ensureChatExists env fp
  let delayOps : List ClientOp := if first then [] else [ClientOp.delay 2000]
  let ops := guard.2 ++ delayOps ++ [ClientOp.sendMessage fp message]
  match env.sendMessage fp message with
  | Except.ok mid =>
    ({ phone := fp, success := true, messageId := some mid,
       error := none, errorCode := none }, ops)
  | Except.error e =>
    ({ phone := raw, success := false, messageId := none,
       error := some e,
       errorCode := some (if containsSub ("No LID".data) e
                          then "NO_LID".data else "SEND_ERROR".data) }, ops)

/-- The `/send-bulk` for-loop: one `bulkItem` per contact, in input
order; `first` is true only for index 0 (it suppresses the inter-message
delay). -/
def bulkLoop (env : ClientEnv) (message : List Char) :
    List Contact → Bool → List BulkEntry × List ClientOp
  | [], _ => ([], [])
  | c :: rest, first =>
    ((bulkItem env message c first).1 :: (bulkLoop env message rest false).1,
     (bulkItem env message c first).2 ++ (bulkLoop env message rest false).2)

/-- server.js line 693: `results.filter(r => r.success).length`. -/
def bulkSuccessCount (rs : List BulkEntry) : Nat :=
  (rs.filter (fun r => r.success)).length

/-- server.js line 694: `results.filter(r => !r.success).length`. -/
def bulkFailedCount (rs : List BulkEntry) : Nat :=
  (rs.filter (fun r => !r.success)).length

/-- The JSON body of a `/send-bulk` response: the summary triple is
`(total, successful, failed)`. -/
structure BulkResponse where
  status : Nat
  success : Bool
  summary : Option (Nat × Nat × Nat)
  results : List BulkEntry
  error : Option (List Char)
deriving DecidableEq

/-- server.js lines 631-634. -/
def bulkRequiredMsg : List Char := "Contacts array and message are required".data

/-- `app.post('/send-bulk')` (server.js lines 619-716): readiness guard,
body validation (`contacts` must be an array and `message` truthy; a
missing or non-array `contacts` is modelled as `none`), then the loop
and the summary. -/
def sendBulkHandler (env : ClientEnv) (s : ServerState)
    (contacts : Option (List Contact)) (message : Option (List Char)) :
    BulkResponse × List ClientOp :=
  if !s.isReady || !s.hasClient then
    ({ status := 400, success := false, summary := none, results := [],
       error := some notConnectedMsg }, [])
  else
    match contacts, message with
    | some cs, some m =>
      if m.isEmpty then
        ({ status := 400, success := false, summary := none, results := [],
           error := some bulkRequiredMsg }, [])
      else
        let r := bulkLoop env m cs true
        ({ status := 200, success := true,
           summary := some (cs.length, bulkSuccessCount r.1, bulkFailedCount r.1),
           results := r.1, error := none }, r.2)
    | _, _ =>
      ({ status := 400, success := false, summary := none, results := [],
         error := some bulkRequiredMsg }, [])

/-- part_000 line 638 / 647. -/
def notReadyMsgV0 : List Char := "WhatsApp client not ready".data

/-- part_000 lines 644-649. -/
def requiredMsgV0 : List Char := "Phone number and message are required".data

/-- part_000 lines 669-675. -/
def sessionUnavailableMsgV0 : List Char :=
  "WhatsApp session is not available. Please reconnect.".data

/-- part_000 lines 662-667: `WhatsApp is not connected. Current state:
(state). Please reconnect.` -/
def wrongStateMsgV0 (st : List Char) : List Char :=
  "WhatsApp is not connected. Current state: ".data ++ st ++
    ". Please reconnect.".data

/-- Error classification of the part_000 send handler (lines 716-726). -/
def classifyV0 (e : List Char) : List Char :=
  if containsSub ("Session closed".data) e || containsSub ("Protocol error".data) e then
    "WhatsApp session has been closed. Please reconnect by scanning the QR code again.".data
  else if containsSub ("timeout".data) e then
    "Message sending timed out. Please try again.".data
  else if containsSub ("No LID for user".data) e then
    "WhatsApp could not create chat session. The number might not be registered or blocked.".data
  else if containsSub ("not registered".data) e then
    "This phone number is not registered on WhatsApp.".data
  else e

/-- Output of the part_000 send handler: the response, the client
operations performed, and the value of `isReady` afterwards (the catch
clears it when the error mentions a closed session, line 719). -/
structure HandlerOutV0 where
  resp : SendResponse
  ops : List ClientOp
  readyAfter : Bool
deriving DecidableEq

/-- `app.post('/api/whatsapp/send-message')` of part_000 (lines 633-734):
readiness guard, field validation, a `client.getState()` check, phone
formatting (append `@c.us` when absent; no digit normalization in this
variant), then the chat-existence guard — whose failure RETURNS a 400
error response without attempting the send (lines 682-691) — and finally
the send (its 30 s timeout race is part of the `sendMessage` oracle). -/
def sendMessageHandlerV0 (env : ClientEnv) (ready : Bool)
    (phone message : Option (List Char)) : HandlerOutV0 :=
  if !ready then
    { resp := { status := 400, success := false, messageId := none,
                error := some notReadyMsgV0, errorCode := none },
      ops := [], readyAfter := ready }
  else if !(jsTruthy phone) || !(jsTruthy message) then
    { resp := { status := 400, success := false, messageId := none,
                error := some requiredMsgV0, errorCode := none },
      ops := [], readyAfter := ready }
  else
    match env.getState with
    | Except.error _ =>
      { resp := { status := 503, success := false, messageId := none,
                  error := some sessionUnavailableMsgV0, errorCode := none },
        ops := [ClientOp.getState], readyAfter := ready }
    | Except.ok st =>
      if st ≠ "CONNECTED".data then
        { resp := { status := 503, success := false, messageId := none,
                    error := some (wrongStateMsgV0 st), errorCode := none },
          ops := [ClientOp.getState], readyAfter := ready }
      else
        let ph := phone.getD []
        let m := message.getD []
        let fp := formatCUs ph
        let guard := ensureChatExistsV0 env fp
        match guard.1 with
        | Except.error e =>
          { resp := { status := 400, success := false, messageId := none,
                      error := some ("Failed to create chat: ".data ++ e),
                      errorCode := none },
            ops := ClientOp.getState :: guard.2, readyAfter := ready }
        | Except.ok _ =>
          match env.sendMessage fp m with
          | Except.ok mid =>
            { resp := { status := 200, success := true, messageId := some mid,
                        error := none, errorCode := none },
              ops := ClientOp.getState :: guard.2 ++ [ClientOp.sendMessage fp m],
              readyAfter := ready }
          | Except.error e =>
            { resp := { status := 500, success := false, messageId := none,
                        error := some (classifyV0 e), errorCode := none },
              ops := ClientOp.getState :: guard.2 ++ [ClientOp.sendMessage fp m],
              readyAfter :=
                if containsSub ("Session closed".data) e
                   || containsSub ("Protocol error".data) e
                then false else ready }

/-- Equality of oracle results is decidable (needed to evaluate concrete
scenarios). -/
def exceptDecEq {e a : Type} [DecidableEq e] [DecidableEq a] :
    DecidableEq (Except e a)
  | Except.ok x, Except.ok y =>
    if h : x = y then Decidable.isTrue (congrArg Except.ok h)
    else Decidable.isFalse (fun hh => h (Except.ok.inj hh))
  | Except.ok _, Except.error _ =>
    Decidable.isFalse (fun hh => Except.noConfusion hh)
  | Except.error _, Except.ok _ =>
    Decidable.isFalse (fun hh => Except.noConfusion hh)
  | Except.error x, Except.error y =>
    if h : x = y then Decidable.isTrue (congrArg Except.error h)
    else Decidable.isFalse (fun hh => h (Except.error.inj hh))

instance {e a : Type} [DecidableEq e] [DecidableEq a] :
    DecidableEq (Except e a) := exceptDecEq

/-- A state in which the client is fully connected and ready. -/
def sConnState : ServerState :=
  { isReady := true, isAuthenticated := true, qrCode := none,
    clientInitialized := true, initAttempts := 1, hasClient := true }

/-- A state that is awaiting a QR scan (not ready), one init attempt
made. -/
def sMidState : ServerState :=
  { isReady := false, isAuthenticated := false, qrCode := some ("QRDATA".data),
    clientInitialized := false, initAttempts := 1, hasClient := true }

/-- A state whose attempt counter has reached the cap. -/
def sCapState : ServerState :=
  { isReady := false, isAuthenticated := false, qrCode := none,
    clientInitialized := false, initAttempts := 3, hasClient := false }

/-- An environment in which every external call succeeds. -/
def envAllOk : ClientEnv :=
  { isRegisteredUser := fun _ => true
  , getChatById := fun _ => Except.ok true
  , getContactById := fun _ => Except.ok ()
  , sendMessage := fun _ _ => Except.ok ("MID1".data)
  , getState := Except.ok ("CONNECTED".data) }

/-- An environment whose target is unregistered but has a fetchable
existing chat. -/
def envUnregChat : ClientEnv :=
  { isRegisteredUser := fun _ => false
  , getChatById := fun _ => Except.ok true
  , getContactById := fun _ => Except.ok ()
  , sendMessage := fun _ _ => Except.ok ("MID1".data)
  , getState := Except.ok ("CONNECTED".data) }

/-- An environment in which the chat-existence guard fails (unregistered,
no fetchable chat) while the direct message send itself succeeds. -/
def envGuardFail : ClientEnv :=
  { isRegisteredUser := fun _ => false
  , getChatById := fun _ => Except.error ("no chat".data)
  , getContactById := fun _ => Except.ok ()
  , sendMessage := fun _ _ => Except.ok ("MID1".data)
  , getState := Except.ok ("CONNECTED".data) }

/-- Claim C1 (amended): for an input whose trimmed form does not contain
`@c.us` and whose digits form a 10-digit string NOT already starting
with `91`, both the `/send` normalization (with trim) and the shared
`/send-bulk` normalization (without trim) prepend `91` exactly once and
append `@c.us`.  The restriction to digit strings not starting with `91`
is forced by `phone_normalization_violation`. -/
theorem phone_normalization (ds : List Char)
    (hlen : ds.length = 10)
    (h91 : (("91".data).isPrefixOf ds) = false) :
    (∀ q : List Char, containsSub cusSuffix q = false →
       q.filter Char.isDigit = ds →
       formatPhone q = "91".data ++ ds ++ cusSuffix)
    ∧ (∀ phone : List Char, containsSub cusSuffix (jsTrim phone) = false →
       (jsTrim phone).filter Char.isDigit = ds →
       formatPhoneSend phone = "91".data ++ ds ++ cusSuffix) := by
  have core : ∀ q : List Char, containsSub cusSuffix q = false →
      q.filter Char.isDigit = ds →
      formatPhone q = "91".data ++ ds ++ cusSuffix := by
    intro q hq hd
    simp [formatPhone, hq, hd, hlen, h91]
  exact ⟨core, fun phone h1 h2 => core (jsTrim phone) h1 h2⟩

/-- Claim C1, counterexample to the claim as stated: the input
`"9123456789"` contains no `@c.us` and its digits form a valid 10-digit
local number, yet normalization does NOT prepend the country prefix
(because the guard `!startsWith('91')` misreads the leading digits 9,1
as an already-present country code). -/
theorem phone_normalization_violation :
    containsSub cusSuffix (jsTrim ("9123456789".data)) = false
    ∧ ((jsTrim ("9123456789".data)).filter Char.isDigit).length = 10
    ∧ formatPhoneSend ("9123456789".data) = "9123456789@c.us".data
    ∧ formatPhoneSend ("9123456789".data)
        ≠ "91".data ++ (jsTrim ("9123456789".data)).filter Char.isDigit
            ++ cusSuffix := by
  decide

/-- Claim C1, witness: the amended theorem applied to the spec's own
example input `"9876543210"`. -/
theorem phone_normalization_witness :
    formatPhoneSend ("9876543210".data) = "919876543210@c.us".data := by
  have h := (phone_normalization ("9876543210".data) (by decide)
      (by decide)).2 ("9876543210".data) (by decide) (by decide)
  exact h.trans (by decide)

/-- Claim C3 (amended): after a `disconnected` event with reason
`LOGOUT`, the handler clears the ready/authenticated/initialized flags
and the QR payload and requests NO effect at all — in particular no
reconnect is scheduled.  (It also does not remove the session store,
which is what `logout_disconnect_no_store_removal` records against the
original claim.) -/
theorem logout_disconnect_halts (s : ServerState) :
    (onDisconnected s ("LOGOUT".data)).1.isReady = false
    ∧ (onDisconnected s ("LOGOUT".data)).1.isAuthenticated = false
    ∧ (onDisconnected s ("LOGOUT".data)).1.qrCode = none
    ∧ (onDisconnected s ("LOGOUT".data)).1.clientInitialized = false
    ∧ (onDisconnected s ("LOGOUT".data)).2 = [] := by
  refine ⟨rfl, rfl, rfl, rfl, ?_⟩
  simp [onDisconnected]

/-- Claim C3, counterexample to the claim as stated: on a `LOGOUT`
disconnect from a fully connected state the handler performs no effects,
so in particular the on-disk session store is NOT removed. -/
theorem logout_disconnect_no_store_removal :
    (onDisconnected sConnState ("LOGOUT".data)).2 = []
    ∧ Effect.removeSessionStore ∉ (onDisconnected sConnState ("LOGOUT".data)).2 := by
  decide

/-- Claim C5 (amended): the `auth_failure` handler clears `isReady`,
`isAuthenticated` and the QR payload, and schedules nothing: no retry
timer of any backoff is armed (restarting after an auth failure is
delegated to the wrapped library via its `restartOnAuthFail` option, not
done by this code). -/
theorem auth_failure_transition (s : ServerState) :
    (onAuthFailure s).1.isReady = false
    ∧ (onAuthFailure s).1.isAuthenticated = false
    ∧ (onAuthFailure s).1.qrCode = none
    ∧ (onAuthFailure s).2 = [] :=
  ⟨rfl, rfl, rfl, rfl⟩

/-- Claim C5, counterexample to the claim as stated: from a state whose
attempt counter is below the cap, the `auth_failure` handler produces an
empty effect list — no 10-second retry (nor any retry) is scheduled. -/
theorem auth_failure_no_retry :
    sMidState.initAttempts < MAX_INIT_ATTEMPTS
    ∧ (onAuthFailure sMidState).2 = []
    ∧ Effect.scheduleReconnect 10000 ∉ (onAuthFailure sMidState).2 := by
  decide

/-- Claim C9 (amended): each of the `ready`, `authenticated`,
`auth_failure` and `disconnected` handlers leaves `qrCode = null`, so a
`/status` response taken right after any of these transitions never
reports `hasQR` together with `ready` or `authenticated`.  The
restriction to the state immediately after these events is forced by
`qr_reported_with_ready`: the clearing is per-transition, not a global
invariant of all reachable states, because the `qr` handler stores a
payload without touching the flags. -/
theorem qr_cleared_on_transitions (s : ServerState) (r : List Char) :
    (onReady s).1.qrCode = none
    ∧ (onAuthenticated s).1.qrCode = none
    ∧ (onAuthFailure s).1.qrCode = none
    ∧ (onDisconnected s r).1.qrCode = none
    ∧ (statusResponse (onReady s).1).hasQR = false
    ∧ (statusResponse (onReady s).1).ready = true
    ∧ (statusResponse (onAuthenticated s).1).hasQR = false
    ∧ (statusResponse (onAuthenticated s).1).authenticated = true :=
  ⟨rfl, rfl, rfl, rfl, rfl, rfl, rfl, rfl⟩

/-- Claim C9, counterexample to the claim as stated: a non-null QR
payload is NOT confined to the awaiting-scan phase.  The `qr` handler
(server.js lines 101-123) stores the payload without touching `isReady`
or `isAuthenticated`, so after a `ready` event followed by a late `qr`
event the `/status` response reports `hasQR` together with both `ready`
and `authenticated`. -/
theorem qr_reported_with_ready :
    (statusResponse (runActions sMidState
        [SrvAction.ready, SrvAction.qr ("QR2".data)]).1).hasQR = true
    ∧ (statusResponse (runActions sMidState
        [SrvAction.ready, SrvAction.qr ("QR2".data)]).1).ready = true
    ∧ (statusResponse (runActions sMidState
        [SrvAction.ready, SrvAction.qr ("QR2".data)]).1).authenticated = true := by
  decide

/-- Claim C10: in every `/status` response, `connected` equals
`authenticated OR ready`; hence `ready = true` or `authenticated = true`
each force `connected = true`. -/
theorem status_connected_disjunction (s : ServerState) :
    (statusResponse s).connected
      = ((statusResponse s).authenticated || (statusResponse s).ready)
    ∧ ((statusResponse s).ready = true → (statusResponse s).connected = true)
    ∧ ((statusResponse s).authenticated = true →
        (statusResponse s).connected = true) := by
  refine ⟨rfl, ?_, ?_⟩
  · intro h
    show (s.isAuthenticated || s.isReady) = true
    have hh : s.isReady = true := h
    rw [hh, Bool.or_true]
  · intro h
    show (s.isAuthenticated || s.isReady) = true
    have hh : s.isAuthenticated = true := h
    rw [hh, Bool.true_or]

/-- Claim C10, witness: the theorem applied at the connected state. -/
theorem status_connected_witness :
    (statusResponse sConnState).connected = true :=
  (status_connected_disjunction sConnState).2.1 rfl

/-- Once the attempt counter has reached the cap, one transition keeps it
at the cap and requests no client construction. -/
theorem stepAction_capped (s : ServerState) (a : SrvAction)
    (h : MAX_INIT_ATTEMPTS ≤ s.initAttempts) :
    MAX_INIT_ATTEMPTS ≤ (stepAction s a).1.initAttempts
    ∧ Effect.constructClient ∉ (stepAction s a).2 := by
  cases a with
  | qr p => exact ⟨h, by simp [stepAction, onQr]⟩
  | ready => exact ⟨h, by simp [stepAction, onReady]⟩
  | authenticated => exact ⟨h, by simp [stepAction, onAuthenticated]⟩
  | authFailure => exact ⟨h, by simp [stepAction, onAuthFailure]⟩
  | disconnected r =>
    refine ⟨h, ?_⟩
    simp only [stepAction, onDisconnected]
    split <;> simp
  | reconnectTimer =>
    simp only [stepAction, reconnectTimerFire]
    split
    · rename_i hcond
      exact absurd hcond.2 (Nat.not_lt.mpr h)
    · exact ⟨h, by simp⟩
  | callInit =>
    simp only [stepAction, initWhatsAppClient, if_pos h]
    exact ⟨h, by simp⟩
  | initError => exact ⟨h, by simp [stepAction, onInitError]⟩
  | logoutRequest =>
    simp only [stepAction, onLogoutRequest]
    split <;> exact ⟨h, by simp⟩

/-- Claim C4: once `initAttempts` has reached `MAX_INIT_ATTEMPTS`, no
sequence of lifecycle events, reconnect-timer firings, explicit
`initWhatsAppClient` calls, initialization errors or logout requests
ever constructs a client again. -/
theorem init_cap_freezes (s : ServerState) (acts : List SrvAction)
    (h : MAX_INIT_ATTEMPTS ≤ s.initAttempts) :
    Effect.constructClient ∉ (runActions s acts).2 := by
  induction acts generalizing s with
  | nil => simp [runActions]
  | cons a rest ih =>
    have hs := stepAction_capped s a h
    simp only [runActions]
    intro hmem
    rcases List.mem_append.mp hmem with h1 | h2
    · exact hs.2 h1
    · exact ih (stepAction s a).1 hs.1 h2

/-- Claim C4, witness: from a capped state, a disconnect, the reconnect
timer and an explicit init call all construct nothing. -/
theorem init_cap_freezes_witness :
    MAX_INIT_ATTEMPTS ≤ sCapState.initAttempts
    ∧ Effect.constructClient ∉ (runActions sCapState
        [SrvAction.disconnected ("NAVIGATION".data), SrvAction.reconnectTimer,
         SrvAction.callInit]).2 :=
  ⟨by decide, init_cap_freezes sCapState _ (by decide)⟩

/-- The thrown not-registered message mentions no `LID`, so the catch in
`ensureChatExists` rethrows it unchanged. -/
theorem containsLID_notRegistered : containsLID notRegisteredMsg = false := by
  decide

/-- Claim C6 (amended): contract of the chat-existence guard.  For the
server.js `ensureChatExists`: an unregistered target fails with the
not-registered error; a registered target with a fetchable truthy chat
succeeds with no placeholder send; a registered target whose chat fetch
fails (or is falsy) sends the placeholder `.`, waits 1000 ms and
succeeds.  For the part_000 variant the chat fetch comes FIRST: a
fetchable truthy chat succeeds regardless of registration, and the
not-registered failure occurs only when no chat was fetched. -/
theorem ensure_chat_contract (env : ClientEnv) (phone : List Char) :
    (env.isRegisteredUser (formatCUs phone) = false →
       (ensureChatExists env phone).1 = Except.error notRegisteredMsg)
    ∧ (env.isRegisteredUser (formatCUs phone) = true →
       env.getChatById (formatCUs phone) = Except.ok true →
       ensureChatExists env phone =
         (Except.ok true,
          [ClientOp.isRegisteredUser (formatCUs phone),
           ClientOp.getChatById (formatCUs phone)]))
    ∧ (∀ mid : List Char, env.isRegisteredUser (formatCUs phone) = true →
       env.getChatById (formatCUs phone) ≠ Except.ok true →
       env.sendMessage (formatCUs phone) dotText = Except.ok mid →
       ensureChatExists env phone =
         (Except.ok true,
          [ClientOp.isRegisteredUser (formatCUs phone),
           ClientOp.getChatById (formatCUs phone),
           ClientOp.sendMessage (formatCUs phone) dotText,
           ClientOp.delay 1000]))
    ∧ (env.getChatById phone = Except.ok true →
       (ensureChatExistsV0 env phone).1 = Except.ok true)
    ∧ (env.getChatById phone ≠ Except.ok true →
       env.isRegisteredUser phone = false →
       (ensureChatExistsV0 env phone).1 = Except.error notRegisteredMsg) := by
  refine ⟨?_, ?_, ?_, ?_, ?_⟩
  · intro h
    simp [ensureChatExists, ensureChatBody, h, containsLID_notRegistered]
  · intro h1 h2
    simp [ensureChatExists, ensureChatBody, h1, h2]
  · intro mid h1 h2 h3
    rcases hg : env.getChatById (formatCUs phone) with e | b
    · simp [ensureChatExists, ensureChatBody, h1, hg, h3]
    · cases b with
      | false => simp [ensureChatExists, ensureChatBody, h1, hg, h3]
      | true => exact absurd hg h2
  · intro h
    simp [ensureChatExistsV0, h]
  · intro h1 h2
    rcases hg : env.getChatById phone with e | b
    · simp [ensureChatExistsV0, hg, h2]
    · cases b with
      | false => simp [ensureChatExistsV0, hg, h2]
      | true => exact absurd hg h1

/-- Claim C6, counterexample to the claim as stated: under the part_000
variant an unregistered target whose chat fetch succeeds makes
`ensureChatExists` return success instead of failing with the
not-registered error. -/
theorem ensure_unregistered_succeeds_v0 :
    envUnregChat.isRegisteredUser ("919876543210@c.us".data) = false
    ∧ (ensureChatExistsV0 envUnregChat ("919876543210@c.us".data)).1
        = Except.ok true := by
  exact ⟨rfl, rfl⟩

/-- Claim C6, witness: the contract applied to a registered target with
an existing chat — the guard succeeds after exactly the registration
check and the chat fetch. -/
theorem ensure_chat_contract_witness :
    ensureChatExists envAllOk ("919876543210@c.us".data) =
      (Except.ok true,
       [ClientOp.isRegisteredUser ("919876543210@c.us".data),
        ClientOp.getChatById ("919876543210@c.us".data)]) := by
  have h := (ensure_chat_contract envAllOk ("919876543210@c.us".data)).2.1
      rfl rfl
  exact h.trans (by decide)

/-- Claim C7 (amended): in the server.js `/send` handler a failure of the
chat-existence guard is non-fatal — whenever the direct send succeeds
the response is a success carrying the message id, with the send
actually attempted, REGARDLESS of how the guard's oracle calls behave
(the registration and chat-fetch oracles are unconstrained here).  In
the part_000 variant, by contrast, a guard failure returns a 400 error
response. -/
theorem guard_failure_nonfatal (env : ClientEnv) (s : ServerState)
    (ph m mid : List Char)
    (hr : s.isReady = true) (hc : s.hasClient = true)
    (hph : ph.isEmpty = false) (hm : m.isEmpty = false)
    (hsend : env.sendMessage (formatPhoneSend ph) m = Except.ok mid) :
    (sendHandler env s (some ph) (some m)).1 =
      { status := 200, success := true, messageId := some mid,
        error := none, errorCode := none }
    ∧ ClientOp.sendMessage (formatPhoneSend ph) m
        ∈ (sendHandler env s (some ph) (some m)).2
    ∧ (∀ e : List Char,
       (ensureChatExistsV0 env (formatCUs ph)).1 = Except.error e →
       env.getState = Except.ok ("CONNECTED".data) →
       (sendMessageHandlerV0 env true (some ph) (some m)).resp.status = 400
       ∧ (sendMessageHandlerV0 env true (some ph) (some m)).resp.success = false
       ∧ (sendMessageHandlerV0 env true (some ph) (some m)).resp.error =
           some ("Failed to create chat: ".data ++ e)) := by
  refine ⟨?_, ?_, ?_⟩
  · simp [sendHandler, hr, hc, jsTruthy, hph, hm, hsend]
  · simp [sendHandler, hr, hc, jsTruthy, hph, hm, hsend]
  · intro e he hst
    refine ⟨?_, ?_, ?_⟩ <;>
      simp [sendMessageHandlerV0, jsTruthy, hph, hm, hst, he]

/-- Claim C7, counterexample to the claim as stated: in the part_000
send handler, with the client ready and connected but the guard failing
(unregistered target, no fetchable chat), the handler answers with a 400
error response and never attempts the actual message send. -/
theorem guard_failure_fatal_v0 :
    (sendMessageHandlerV0 envGuardFail true
        (some ("919876543210@c.us".data)) (some ("hello".data))).resp.status = 400
    ∧ (sendMessageHandlerV0 envGuardFail true
        (some ("919876543210@c.us".data)) (some ("hello".data))).resp.success = false
    ∧ ClientOp.sendMessage ("919876543210@c.us".data) ("hello".data)
        ∉ (sendMessageHandlerV0 envGuardFail true
            (some ("919876543210@c.us".data)) (some ("hello".data))).ops := by
  decide

/-- Claim C7, witness: under the very environment in which the guard
fails, the server.js `/send` handler still answers success. -/
theorem guard_failure_nonfatal_witness :
    (sendHandler envGuardFail sConnState
        (some ("9876543210".data)) (some ("hi".data))).1 =
      { status := 200, success := true, messageId := some ("MID1".data),
        error := none, errorCode := none } :=
  (guard_failure_nonfatal envGuardFail sConnState ("9876543210".data)
      ("hi".data) ("MID1".data) rfl rfl rfl rfl rfl).1

/-- Claim C8: while `isReady` is false (phase Uninitialized or
AwaitingScan), both `/send` and `/send-bulk` answer a 400 error without
performing any operation on the external client. -/
theorem not_ready_rejects (env : ClientEnv) (s : ServerState)
    (phone message : Option (List Char)) (contacts : Option (List Contact))
    (h : s.isReady = false) :
    (sendHandler env s phone message).1.status = 400
    ∧ (sendHandler env s phone message).1.success = false
    ∧ (sendHandler env s phone message).2 = []
    ∧ (sendBulkHandler env s contacts message).1.status = 400
    ∧ (sendBulkHandler env s contacts message).1.success = false
    ∧ (sendBulkHandler env s contacts message).2 = [] := by
  refine ⟨?_, ?_, ?_, ?_, ?_, ?_⟩ <;> simp [sendHandler, sendBulkHandler, h]

/-- Claim C8, witness: a concrete rejected send from the awaiting-scan
state. -/
theorem not_ready_rejects_witness :
    (sendHandler envAllOk sMidState
        (some ("9876543210".data)) (some ("hi".data))).1.status = 400
    ∧ (sendHandler envAllOk sMidState
        (some ("9876543210".data)) (some ("hi".data))).2 = [] :=
  ⟨(not_ready_rejects envAllOk sMidState _ _ none rfl).1,
   (not_ready_rejects envAllOk sMidState _ _ none rfl).2.2.1⟩

/-- The result entry of one bulk iteration does not depend on whether it
is the first iteration (only the logged delay does). -/
theorem bulkItem_fst (env : ClientEnv) (m : List Char) (c : Contact)
    (f : Bool) : (bulkItem env m c f).1 = (bulkItem env m c true).1 := by
  unfold bulkItem
  rcases h : env.sendMessage (formatPhone (contactPhone c)) m with e | mid <;>
    simp [h]

/-- The result entry the bulk loop records for a contact. -/
def itemResult (env : ClientEnv) (m : List Char) (c : Contact) : BulkEntry :=
  (bulkItem env m c true).1

/-- The bulk loop records exactly the per-contact entries, in input
order. -/
theorem bulkLoop_results (env : ClientEnv) (m : List Char)
    (cs : List Contact) (f : Bool) :
    (bulkLoop env m cs f).1 = cs.map (itemResult env m) := by
  induction cs generalizing f with
  | nil => rfl
  | cons c rest ih =>
    simp only [bulkLoop, List.map]
    rw [bulkItem_fst env m c f, ih false]
    rfl

/-- Splitting a list by a boolean predicate preserves its length. -/
theorem length_filter_add_length_filter_not {a : Type} (l : List a)
    (p : a → Bool) :
    (l.filter p).length + (l.filter (fun x => !p x)).length = l.length := by
  induction l with
  | nil => rfl
  | cons x xs ih =>
    cases hx : p x <;> simp [List.filter_cons, hx] <;> omega

/-- Claim C2: for an accepted bulk request in the ready state, the
results array has exactly one entry per input contact in input order
(`map` over the contacts), the summary is `(total, successful, failed)`
computed over that array, successful plus failed equals the number of
contacts, and successful never exceeds it; since each contact's entry is
a pure function of that contact alone, a failing destination never
aborts the processing of the rest. -/
theorem bulk_send_contract (env : ClientEnv) (s : ServerState)
    (m : List Char) (cs : List Contact)
    (hr : s.isReady = true) (hc : s.hasClient = true)
    (hm : m.isEmpty = false) :
    (sendBulkHandler env s (some cs) (some m)).1.results
      = cs.map (itemResult env m)
    ∧ (sendBulkHandler env s (some cs) (some m)).1.summary =
        some (cs.length,
          bulkSuccessCount ((sendBulkHandler env s (some cs) (some m)).1.results),
          bulkFailedCount ((sendBulkHandler env s (some cs) (some m)).1.results))
    ∧ bulkSuccessCount ((sendBulkHandler env s (some cs) (some m)).1.results)
        + bulkFailedCount ((sendBulkHandler env s (some cs) (some m)).1.results)
        = cs.length
    ∧ bulkSuccessCount ((sendBulkHandler env s (some cs) (some m)).1.results)
        ≤ cs.length := by
  have hres : (sendBulkHandler env s (some cs) (some m)).1.results
      = (bulkLoop env m cs true).1 := by
    simp [sendBulkHandler, hr, hc, hm]
  have hsum : (sendBulkHandler env s (some cs) (some m)).1.summary =
      some (cs.length, bulkSuccessCount (bulkLoop env m cs true).1,
            bulkFailedCount (bulkLoop env m cs true).1) := by
    simp [sendBulkHandler, hr, hc, hm]
  have hlen : ((bulkLoop env m cs true).1).length = cs.length := by
    rw [bulkLoop_results]; exact List.length_map cs (itemResult env m)
  refine ⟨?_, ?_, ?_, ?_⟩
  · rw [hres, bulkLoop_results]
  · rw [hsum, hres]
  · rw [hres]
    unfold bulkSuccessCount bulkFailedCount
    rw [length_filter_add_length_filter_not]
    exact hlen
  · rw [hres]
    unfold bulkSuccessCount
    exact le_trans (List.length_filter_le _ _) (le_of_eq hlen)

/-- Claim C2, witness: a concrete two-contact batch yields two ordered
entries and the summary `(2, 2, 0)`. -/
theorem bulk_send_contract_witness :
    (sendBulkHandler envAllOk sConnState
        (some [Contact.plain ("9876543210".data), Contact.obj ("12".data)])
        (some ("hello".data))).1.summary = some (2, 2, 0) := by
  have h := bulk_send_contract envAllOk sConnState ("hello".data)
      [Contact.plain ("9876543210".data), Contact.obj ("12".data)]
      rfl rfl rfl
  rw [h.2.1, h.1]
  decide
